import Mathlib

/-!
Verification of the Apartment property-management backend.

This file gives a shallow embedding of the backend's data model
(Mongoose schemas for User, Apartment, Payment) and of the controller
and middleware operations that the verified properties talk about:
`addTenant`, `removeTenant`, `deleteApartment`, `createTenant`
(apartment / user controllers), `createPayment`, `markPaymentAsPaid`
and the Payment schema's save hook (payment controller / model), and
the `auth` middleware.

Collections are association lists from ids (Nat) to documents; Mongo
operators (`$addToSet`, `$pull`, `$unset`, `findByIdAndUpdate`,
`updateMany` with `$in`) are modelled as list transformations.  Dates
are Nat timestamps.  Handler results are either a success value or an
HTTP status code plus message body.
-/

set_option maxHeartbeats 1000000

namespace PropertyMgmt

/-- User roles, from `UserRole` in the User model. -/
inductive UserRole where
  | superadmin
  | manager
  | tenant
deriving DecidableEq

/-- Payment statuses, from `PaymentStatus` in the Payment model. -/
inductive PaymentStatus where
  | pending
  | paid
  | overdue
  | cancelled
deriving DecidableEq

/-- Payment types, from `PaymentType` in the Payment model. -/
inductive PaymentType where
  | rent
  | deposit
  | maintenance
  | other
deriving DecidableEq

/-- A user document (User model).  The role-conditional fields of the
schema are always present, defaulting to empty/none as in Mongoose. -/
structure User where
  name : String
  email : String
  role : UserRole
  managedApartments : List Nat
  assignedManager : Option Nat
  assignedApartment : Option Nat
deriving DecidableEq

/-- An apartment document (Apartment model). -/
structure Apartment where
  name : String
  address : String
  description : Option String
  numberOfRooms : Nat
  price : Nat
  available : Bool
  owner : Nat
  manager : Option Nat
  tenants : List Nat
deriving DecidableEq

/-- A payment document (Payment model). -/
structure Payment where
  amount : Nat
  tenant : Nat
  apartment : Nat
  dueDate : Nat
  paymentDate : Option Nat
  status : PaymentStatus
  paymentType : PaymentType
  description : Option String
  createdBy : Nat
  updatedBy : Option Nat
deriving DecidableEq

/-- The persistent store: the three keyed collections the claims touch. -/
structure DB where
  users : List (Nat × User)
  apartments : List (Nat × Apartment)
  payments : List (Nat × Payment)
deriving DecidableEq

/-- A handler outcome: a success value, or an HTTP status code and body. -/
inductive Res (α : Type) where
  | ok : α → Res α
  | err : Nat → String → Res α
deriving DecidableEq

/-- `Model.findById`: the document stored under a key, if any. -/
def findById {α : Type} : List (Nat × α) → Nat → Option α
  | [], _ => none
  | (k0, v) :: rest, k => if k0 = k then some v else findById rest k

/-- `Model.findByIdAndUpdate`: apply `f` to the document(s) under a key. -/
def updateById {α : Type} : List (Nat × α) → Nat → (α → α) → List (Nat × α)
  | [], _, _ => []
  | (k0, v) :: rest, k, f =>
    (k0, if k0 = k then f v else v) :: updateById rest k f

/-- `Model.updateMany({_id: {$in: ks}}, ...)`. -/
def updateByIds {α : Type} : List (Nat × α) → List Nat → (α → α) → List (Nat × α)
  | [], _, _ => []
  | (k0, v) :: rest, ks, f =>
    (k0, if k0 ∈ ks then f v else v) :: updateByIds rest ks f

/-- `document.deleteOne()`: remove the document(s) under a key. -/
def removeById {α : Type} : List (Nat × α) → Nat → List (Nat × α)
  | [], _ => []
  | (k0, v) :: rest, k =>
    if k0 = k then removeById rest k else (k0, v) :: removeById rest k

/-- Mongo `$addToSet` on an array of ids. -/
def addToSet (l : List Nat) (x : Nat) : List Nat :=
  if x ∈ l then l else l ++ [x]

/-- Mongo `$pull` of one id from an array. -/
def pull (l : List Nat) (x : Nat) : List Nat :=
  l.filter fun y => y != x

/-- `User.findOne({email})`, the duplicate check in user creation. -/
def findOneByEmail : List (Nat × User) → String → Option (Nat × User)
  | [], _ => none
  | p :: rest, email =>
    if p.2.email = email then some p else findOneByEmail rest email

/-! ## The bidirectional assignment invariant (spec section 3) -/

/-- Forward half for one user document: if `assignedApartment = some aid`
then apartment `aid` exists and lists the user among its `tenants`. -/
def userPtrOk (db : DB) (uid : Nat) (u : User) : Bool :=
  match u.assignedApartment with
  | none => true
  | some aid =>
    match findById db.apartments aid with
    | none => false
    | some a => decide (uid ∈ a.tenants)

/-- Converse half for one entry of an apartment's `tenants` array: the
referenced user exists and has this apartment as `assignedApartment`. -/
def tenantPtrOk (db : DB) (aid uid : Nat) : Bool :=
  match findById db.users uid with
  | none => false
  | some u => decide (u.assignedApartment = some aid)

/-- The global bidirectional assignment invariant over the whole store. -/
def bidirInv (db : DB) : Bool :=
  (db.users.all fun p => userPtrOk db p.1 p.2) &&
  (db.apartments.all fun q => q.2.tenants.all fun uid => tenantPtrOk db q.1 uid)

/-! ## Apartment controller operations -/

/-- Error body of the `Apartment.findOne({_id, manager})` guard in
`addTenant`/`removeTenant`: not-found and not-managed are one response. -/
def aptNotManagedMsg : String :=
  "Apartment not found or you do not have permission to manage this apartment"

/-- `addTenant` (apartment controller): validates the tenant id, requires
the apartment to exist and be managed by the caller, `$addToSet`s the
tenant on the apartment, and overwrites the tenant's `assignedApartment`
and `assignedManager`. -/
def addTenant (db : DB) (callerId aptId : Nat) (tenantId : Option Nat) :
    Res DB :=
  match tenantId with
  | none => .err 400 "Tenant ID is required"
  | some tid =>
    match findById db.users tid with
    | none => .err 400 "Invalid tenant ID"
    | some tu =>
      if tu.role ≠ UserRole.tenant then .err 400 "Invalid tenant ID"
      else
        match findById db.apartments aptId with
        | none => .err 404 aptNotManagedMsg
        | some apt =>
          if apt.manager ≠ some callerId then .err 404 aptNotManagedMsg
          else
            .ok { db with
              apartments := updateById db.apartments aptId (fun a =>
                { a with tenants := addToSet a.tenants tid }),
              users := updateById db.users tid (fun u =>
                { u with assignedApartment := some aptId,
                         assignedManager := some callerId }) }

/-- `removeTenant` (apartment controller): validates that the tenant id
resolves (no role check in the source), requires the apartment to exist
and be managed by the caller, `$pull`s the tenant from the apartment and
`$unset`s both back-reference fields on the tenant. -/
def removeTenant (db : DB) (callerId aptId : Nat) (tenantId : Option Nat) :
    Res DB :=
  match tenantId with
  | none => .err 400 "Tenant ID is required"
  | some tid =>
    match findById db.users tid with
    | none => .err 400 "Invalid tenant ID"
    | some _ =>
      match findById db.apartments aptId with
      | none => .err 404 aptNotManagedMsg
      | some apt =>
        if apt.manager ≠ some callerId then .err 404 aptNotManagedMsg
        else
          .ok { db with
            apartments := updateById db.apartments aptId (fun a =>
              { a with tenants := pull a.tenants tid }),
            users := updateById db.users tid (fun u =>
              { u with assignedApartment := none, assignedManager := none }) }

/-- `deleteApartment` (apartment controller): 404 when absent; otherwise
`$pull`s the apartment from its manager's `managedApartments` (when a
manager is set), `$unset`s `assignedApartment` on every listed tenant
(`assignedManager` is left untouched), then deletes the record. -/
def deleteApartment (db : DB) (aptId : Nat) : Res DB :=
  match findById db.apartments aptId with
  | none => .err 404 "Apartment not found"
  | some apt =>
    let users1 :=
      match apt.manager with
      | none => db.users
      | some m => updateById db.users m (fun u =>
          { u with managedApartments := pull u.managedApartments aptId })
    let users2 := updateByIds users1 apt.tenants (fun u =>
      { u with assignedApartment := none })
    .ok { db with users := users2, apartments := removeById db.apartments aptId }

/-! ## User controller: tenant creation -/

/-- Request body of `createTenant` (`apartmentId` is passed through
verbatim and may be absent). -/
structure TenantAttrs where
  name : String
  email : String
  apartmentId : Option Nat
deriving DecidableEq

/-- The user document `createTenant` persists. -/
def newTenantUser (callerId : Nat) (attrs : TenantAttrs) : User :=
  { name := attrs.name, email := attrs.email, role := UserRole.tenant,
    managedApartments := [], assignedManager := some callerId,
    assignedApartment := attrs.apartmentId }

/-- `createTenant` (user controller): rejects a duplicate email, otherwise
persists a new TENANT with `assignedManager` set to the caller and
`assignedApartment` copied from the request — no apartment lookup and no
apartment-side update occur in the source. -/
def createTenant (db : DB) (callerId : Nat) (attrs : TenantAttrs)
    (newId : Nat) : Res DB :=
  match findOneByEmail db.users attrs.email with
  | some _ => .err 400 "User already exists"
  | none =>
    .ok { db with users := db.users ++ [(newId, newTenantUser callerId attrs)] }

/-! ## Payment model and controller -/

/-- The Payment schema's save hook: a PENDING payment whose due date has
passed is flipped to OVERDUE; every other status is left untouched. -/
def preSaveDerive (now : Nat) (p : Payment) : Payment :=
  if p.dueDate < now ∧ p.status = PaymentStatus.pending then
    { p with status := PaymentStatus.overdue }
  else p

/-- Request body of `createPayment`. -/
structure PaymentAttrs where
  amount : Nat
  tenantId : Nat
  apartmentId : Nat
  dueDate : Nat
  paymentType : PaymentType
  description : Option String
deriving DecidableEq

/-- The payment document `createPayment` builds before saving: status is
set to PENDING, `paymentDate` is not set. -/
def newPaymentDoc (callerId : Nat) (attrs : PaymentAttrs) : Payment :=
  { amount := attrs.amount, tenant := attrs.tenantId,
    apartment := attrs.apartmentId, dueDate := attrs.dueDate,
    paymentDate := none, status := PaymentStatus.pending,
    paymentType := attrs.paymentType, description := attrs.description,
    createdBy := callerId, updatedBy := none }

/-- `createPayment` (payment controller): the tenant must resolve to a
TENANT, the apartment must exist and be managed by the caller; the new
document is built with status PENDING and then saved, which runs the
Payment schema's save hook. -/
def createPayment (db : DB) (callerId : Nat) (attrs : PaymentAttrs)
    (newId now : Nat) : Res DB :=
  match findById db.users attrs.tenantId with
  | none => .err 400 "Invalid tenant ID"
  | some tu =>
    if tu.role ≠ UserRole.tenant then .err 400 "Invalid tenant ID"
    else
      match findById db.apartments attrs.apartmentId with
      | none => .err 400 aptNotManagedMsg
      | some apt =>
        if apt.manager ≠ some callerId then .err 400 aptNotManagedMsg
        else
          .ok { db with payments := db.payments ++
            [(newId, preSaveDerive now (newPaymentDoc callerId attrs))] }

/-- `markPaymentAsPaid` (payment controller): 404 when the payment is
absent, 403 unless the payment's apartment is managed by the caller;
otherwise sets status PAID, `paymentDate = now` (unconditionally) and
`updatedBy`, then saves (running the save hook). -/
def markPaymentAsPaid (db : DB) (callerId pid now : Nat) : Res DB :=
  match findById db.payments pid with
  | none => .err 404 "Payment record not found"
  | some payment =>
    match findById db.apartments payment.apartment with
    | none => .err 403 "You do not have permission to update this payment"
    | some apt =>
      if apt.manager ≠ some callerId then
        .err 403 "You do not have permission to update this payment"
      else
        .ok { db with payments := updateById db.payments pid (fun _ =>
          preSaveDerive now
            { payment with status := PaymentStatus.paid,
                           paymentDate := some now,
                           updatedBy := some callerId }) }

/-! ## Authentication middleware -/

/-- An inbound bearer token.  The JWT library is an opaque capability in
the source; a token is malformed, expired, or valid with a subject id. -/
inductive Token where
  | malformed
  | expired (subjectId : Nat)
  | valid (subjectId : Nat)
deriving DecidableEq

/-- `jwt.verify`: throws (returns `none`) on a malformed or expired
token, otherwise yields the decoded subject id. -/
def verifyJwt : Token → Option Nat
  | .malformed => none
  | .expired _ => none
  | .valid sid => some sid

/-- Outcome of the `auth` middleware: an error response, or the resolved
caller identity attached to the request. -/
inductive AuthResult where
  | failure (statusCode : Nat) (msg : String)
  | success (id : Nat) (role : UserRole)
deriving DecidableEq

/-- The `auth` middleware: 401 when no token, 401 when `jwt.verify`
throws, 401 when the decoded subject id resolves to no user; on success
the user's id and role are attached to the request. -/
def auth (db : DB) (token : Option Token) : AuthResult :=
  match token with
  | none => .failure 401 "No token, authorization denied"
  | some t =>
    match verifyJwt t with
    | none => .failure 401 "Token is not valid"
    | some sid =>
      match findById db.users sid with
      | none => .failure 401 "User not found"
      | some u => .success sid u.role

/-! ## Concrete stores for the counterexamples and witnesses -/

/-- A minimal apartment document for the concrete test stores. -/
def aptDoc (mgr : Option Nat) (ts : List Nat) : Apartment :=
  { name := "Oak", address := "1 Oak St", description := none,
    numberOfRooms := 1, price := 0, available := true, owner := 9,
    manager := mgr, tenants := ts }

/-- A minimal tenant document for the concrete test stores. -/
def tenantDoc (mgr apt : Option Nat) : User :=
  { name := "T", email := "t@example.com", role := UserRole.tenant,
    managedApartments := [], assignedManager := mgr, assignedApartment := apt }

/-- A minimal manager document for the concrete test stores. -/
def managerDoc (apts : List Nat) : User :=
  { name := "M", email := "m@example.com", role := UserRole.manager,
    managedApartments := apts, assignedManager := none,
    assignedApartment := none }

/-- A payment document for the concrete test stores. -/
def paymentDoc (st : PaymentStatus) (due : Nat) (pd ub : Option Nat) : Payment :=
  { amount := 1200, tenant := 1, apartment := 10, dueDate := due,
    paymentDate := pd, status := st, paymentType := PaymentType.rent,
    description := none, createdBy := 2, updatedBy := ub }

/-- Store for the C1 counterexample: tenant 1 lives in apartment 20,
manager 2 manages apartments 10 and 20; the invariant holds. -/
def c1Db : DB :=
  { users := [(1, tenantDoc (some 2) (some 20)), (2, managerDoc [10, 20])],
    apartments := [(10, aptDoc (some 2) []), (20, aptDoc (some 2) [1])],
    payments := [] }

/-- Result of `addTenant c1Db 2 10 (some 1)`: tenant 1 now points at
apartment 10 but is still listed in apartment 20's tenants array. -/
def c1DbAfter : DB :=
  { users := [(1, tenantDoc (some 2) (some 10)), (2, managerDoc [10, 20])],
    apartments := [(10, aptDoc (some 2) [1]), (20, aptDoc (some 2) [1])],
    payments := [] }

/-- Witness store for the amended C1: tenant 1 is unassigned. -/
def c1wAddDb : DB :=
  { users := [(1, tenantDoc none none), (2, managerDoc [10])],
    apartments := [(10, aptDoc (some 2) [])], payments := [] }

/-- Result of `addTenant c1wAddDb 2 10 (some 1)`. -/
def c1wAddAfter : DB :=
  { users := [(1, tenantDoc (some 2) (some 10)), (2, managerDoc [10])],
    apartments := [(10, aptDoc (some 2) [1])], payments := [] }

/-- Witness store for the remove half of the amended C1. -/
def c1wRemDb : DB := c1wAddAfter

/-- Result of `removeTenant c1wRemDb 2 10 (some 1)`. -/
def c1wRemAfter : DB :=
  { users := [(1, tenantDoc none none), (2, managerDoc [10])],
    apartments := [(10, aptDoc (some 2) [])], payments := [] }

/-- Store for the C2 counterexample: one pending payment, due far in the
future, for an apartment managed by user 2. -/
def c2Db : DB :=
  { users := [(1, tenantDoc (some 2) (some 10)), (2, managerDoc [10])],
    apartments := [(10, aptDoc (some 2) [1])],
    payments := [(7, paymentDoc PaymentStatus.pending 100 none none)] }

/-- After the first `markPaymentAsPaid` at time 5. -/
def c2Db1 : DB :=
  { c2Db with
    payments := [(7, paymentDoc PaymentStatus.paid 100 (some 5) (some 2))] }

/-- After a second `markPaymentAsPaid` at time 9: paymentDate re-stamped. -/
def c2Db2 : DB :=
  { c2Db with
    payments := [(7, paymentDoc PaymentStatus.paid 100 (some 9) (some 2))] }

/-- Witness store for the amended C2: an overdue payment. -/
def c2wDb : DB :=
  { users := [(1, tenantDoc (some 2) (some 10)), (2, managerDoc [10])],
    apartments := [(10, aptDoc (some 2) [1])],
    payments := [(7, paymentDoc PaymentStatus.overdue 3 none none)] }

/-- Result of `markPaymentAsPaid c2wDb 2 7 5`. -/
def c2wDb1 : DB :=
  { c2wDb with
    payments := [(7, paymentDoc PaymentStatus.paid 3 (some 5) (some 2))] }

/-- Store for the C3 counterexample and witness. -/
def c3Db : DB :=
  { users := [(1, tenantDoc (some 2) (some 10)), (2, managerDoc [10])],
    apartments := [(10, aptDoc (some 2) [1])], payments := [] }

/-- A createPayment request whose due date (3) is already in the past at
creation time (5). -/
def c3Attrs : PaymentAttrs :=
  { amount := 1200, tenantId := 1, apartmentId := 10, dueDate := 3,
    paymentType := PaymentType.rent, description := none }

/-- Result of `createPayment c3Db 2 c3Attrs 100 5`: stored OVERDUE. -/
def c3DbAfter : DB :=
  { c3Db with payments := [(100,
      { amount := 1200, tenant := 1, apartment := 10, dueDate := 3,
        paymentDate := none, status := PaymentStatus.overdue,
        paymentType := PaymentType.rent, description := none,
        createdBy := 2, updatedBy := none })] }

/-- Store for the C5 witness: caller 2 manages nothing; apartment 20 is
managed by 3; apartment 10 does not exist. -/
def c5Db : DB :=
  { users := [(1, tenantDoc none none), (2, managerDoc []),
              (3, managerDoc [20])],
    apartments := [(20, aptDoc (some 3) [])], payments := [] }

/-- Store for the C6 and C9 witnesses: apartment 10 with manager 2 and
tenants 1 and 3. -/
def c6Db : DB :=
  { users := [(1, tenantDoc (some 2) (some 10)),
              (3, tenantDoc (some 2) (some 10)), (2, managerDoc [10])],
    apartments := [(10, aptDoc (some 2) [1, 3])], payments := [] }

/-- Result of `deleteApartment c6Db 10`. -/
def c6DbAfter : DB :=
  { users := [(1, tenantDoc (some 2) none), (3, tenantDoc (some 2) none),
              (2, managerDoc [])],
    apartments := [], payments := [] }

/-- Store for the C7 witness: a single user with id 1. -/
def c7Db : DB :=
  { users := [(1, tenantDoc none none)], apartments := [], payments := [] }

/-- Store for the C8 witness: a manager and one apartment. -/
def c8Db : DB :=
  { users := [(2, managerDoc [10])],
    apartments := [(10, aptDoc (some 2) [])], payments := [] }

/-- A createTenant request naming an apartment id (99) that does not
exist in `c8Db`. -/
def c8Attrs : TenantAttrs :=
  { name := "N", email := "new@example.com", apartmentId := some 99 }

/-- Result of `createTenant c8Db 2 c8Attrs 5`. -/
def c8After : DB :=
  { c8Db with users := c8Db.users ++ [(5, newTenantUser 2 c8Attrs)] }

/-- Store for the C10 witness: a CANCELLED payment for apartment 10,
managed by user 2. -/
def c10Db : DB :=
  { users := [(1, tenantDoc (some 2) (some 10)), (2, managerDoc [10])],
    apartments := [(10, aptDoc (some 2) [1])],
    payments := [(7, paymentDoc PaymentStatus.cancelled 3 none none)] }

/-! ## Association-list lemmas -/

theorem findById_updateById_self {α : Type} (l : List (Nat × α)) (k : Nat)
    (f : α → α) : findById (updateById l k f) k = (findById l k).map f := by
  induction l with
  | nil => rfl
  | cons p rest ih =>
    obtain ⟨a, v⟩ := p
    by_cases hak : a = k
    · subst hak
      simp [updateById, findById]
    · simp [updateById, findById, hak, ih]

theorem findById_updateById_ne {α : Type} (l : List (Nat × α)) {k j : Nat}
    (f : α → α) (h : j ≠ k) : findById (updateById l k f) j = findById l j := by
  induction l with
  | nil => rfl
  | cons p rest ih =>
    obtain ⟨a, v⟩ := p
    by_cases haj : a = j
    · subst haj
      simp [updateById, findById, h, ih]
    · simp [updateById, findById, haj, ih]

theorem findById_updateById_isSome {α : Type} (l : List (Nat × α)) (k j : Nat)
    (f : α → α) {v : α} (h : findById l j = some v) :
    ∃ w, findById (updateById l k f) j = some w ∧ (w = v ∨ w = f v) := by
  by_cases hjk : j = k
  · subst hjk
    rw [findById_updateById_self, h]
    exact ⟨f v, rfl, Or.inr rfl⟩
  · rw [findById_updateById_ne _ _ hjk, h]
    exact ⟨v, rfl, Or.inl rfl⟩

theorem findById_updateByIds_mem {α : Type} (l : List (Nat × α))
    {ks : List Nat} {j : Nat} (f : α → α) (h : j ∈ ks) :
    findById (updateByIds l ks f) j = (findById l j).map f := by
  induction l with
  | nil => rfl
  | cons p rest ih =>
    obtain ⟨a, v⟩ := p
    by_cases haj : a = j
    · subst haj
      simp [updateByIds, findById, h]
    · simp [updateByIds, findById, haj, ih]

theorem findById_updateByIds_not_mem {α : Type} (l : List (Nat × α))
    {ks : List Nat} {j : Nat} (f : α → α) (h : j ∉ ks) :
    findById (updateByIds l ks f) j = findById l j := by
  induction l with
  | nil => rfl
  | cons p rest ih =>
    obtain ⟨a, v⟩ := p
    by_cases haj : a = j
    · subst haj
      simp [updateByIds, findById, h]
    · simp [updateByIds, findById, haj, ih]

theorem findById_removeById_self {α : Type} (l : List (Nat × α)) (k : Nat) :
    findById (removeById l k) k = none := by
  induction l with
  | nil => rfl
  | cons p rest ih =>
    obtain ⟨a, v⟩ := p
    by_cases hak : a = k
    · simp [removeById, hak, ih]
    · simp [removeById, findById, hak, ih]

theorem findById_removeById_ne {α : Type} (l : List (Nat × α)) {k j : Nat}
    (h : j ≠ k) : findById (removeById l k) j = findById l j := by
  induction l with
  | nil => rfl
  | cons p rest ih =>
    obtain ⟨a, v⟩ := p
    by_cases hak : a = k
    · subst hak
      simp [removeById, findById, Ne.symm h, ih]
    · by_cases haj : a = j
      · subst haj
        simp [removeById, findById, hak]
      · simp [removeById, findById, hak, haj, ih]

theorem findById_append {α : Type} (l m : List (Nat × α)) (j : Nat) :
    findById (l ++ m) j =
      match findById l j with
      | some v => some v
      | none => findById m j := by
  induction l with
  | nil => simp [findById]
  | cons p rest ih =>
    obtain ⟨a, v⟩ := p
    by_cases haj : a = j <;> simp [findById, haj, ih]

theorem mem_updateById {α : Type} {l : List (Nat × α)} {k : Nat} {f : α → α}
    {p : Nat × α} :
    p ∈ updateById l k f ↔
      ∃ q ∈ l, p = (q.1, if q.1 = k then f q.2 else q.2) := by
  induction l with
  | nil => simp [updateById]
  | cons q0 rest ih =>
    obtain ⟨a, v⟩ := q0
    simp only [updateById, List.mem_cons, ih]
    constructor
    · rintro (rfl | ⟨q, hq, rfl⟩)
      · exact ⟨(a, v), Or.inl rfl, rfl⟩
      · exact ⟨q, Or.inr hq, rfl⟩
    · rintro ⟨q, (rfl | hq), rfl⟩
      · exact Or.inl rfl
      · exact Or.inr ⟨q, hq, rfl⟩

theorem mem_addToSet {l : List Nat} {x y : Nat} :
    y ∈ addToSet l x ↔ y ∈ l ∨ y = x := by
  unfold addToSet
  split
  · constructor
    · exact Or.inl
    · rintro (h | rfl) <;> assumption
  · simp

theorem mem_pull {l : List Nat} {x y : Nat} :
    y ∈ pull l x ↔ y ∈ l ∧ y ≠ x := by
  simp [pull, List.mem_filter]

theorem not_mem_pull_self {l : List Nat} {x : Nat} : x ∉ pull l x := by
  intro h
  exact (mem_pull.mp h).2 rfl

/-! ## Unfolding lemmas for the invariant -/

theorem userPtrOk_iff {db : DB} {uid : Nat} {u : User} :
    userPtrOk db uid u = true ↔
      ∀ aid, u.assignedApartment = some aid →
        ∃ a, findById db.apartments aid = some a ∧ uid ∈ a.tenants := by
  unfold userPtrOk
  cases hass : u.assignedApartment with
  | none => simp
  | some aid =>
    cases hfind : findById db.apartments aid with
    | none => simp [hfind]
    | some a => simp [hfind]

theorem tenantPtrOk_iff {db : DB} {aid uid : Nat} :
    tenantPtrOk db aid uid = true ↔
      ∃ u, findById db.users uid = some u ∧
        u.assignedApartment = some aid := by
  unfold tenantPtrOk
  cases hfind : findById db.users uid with
  | none => simp
  | some u => simp

theorem bidirInv_iff {db : DB} :
    bidirInv db = true ↔
      (∀ p ∈ db.users, userPtrOk db p.1 p.2 = true) ∧
      (∀ q ∈ db.apartments, ∀ uid ∈ q.2.tenants,
        tenantPtrOk db q.1 uid = true) := by
  simp [bidirInv, List.all_eq_true]

/-! ## Success-shape lemmas for the operations -/

theorem addTenant_ok {db : DB} {caller aptId tid : Nat} {db' : DB}
    (h : addTenant db caller aptId (some tid) = .ok db') :
    ∃ tu apt, findById db.users tid = some tu ∧ tu.role = UserRole.tenant ∧
      findById db.apartments aptId = some apt ∧ apt.manager = some caller ∧
      db' = { db with
        apartments := updateById db.apartments aptId (fun a =>
          { a with tenants := addToSet a.tenants tid }),
        users := updateById db.users tid (fun u =>
          { u with assignedApartment := some aptId,
                   assignedManager := some caller }) } := by
  simp only [addTenant] at h
  split at h
  · simp at h
  · rename_i tu htu
    split at h
    · simp at h
    · rename_i hrole
      push_neg at hrole
      split at h
      · simp at h
      · rename_i apt hapt
        split at h
        · simp at h
        · rename_i hmgr
          push_neg at hmgr
          injection h with h1
          exact ⟨tu, apt, htu, hrole, hapt, hmgr, h1.symm⟩

theorem removeTenant_ok {db : DB} {caller aptId tid : Nat} {db' : DB}
    (h : removeTenant db caller aptId (some tid) = .ok db') :
    ∃ tu apt, findById db.users tid = some tu ∧
      findById db.apartments aptId = some apt ∧ apt.manager = some caller ∧
      db' = { db with
        apartments := updateById db.apartments aptId (fun a =>
          { a with tenants := pull a.tenants tid }),
        users := updateById db.users tid (fun u =>
          { u with assignedApartment := none, assignedManager := none }) } := by
  simp only [removeTenant] at h
  split at h
  · simp at h
  · rename_i tu htu
    split at h
    · simp at h
    · rename_i apt hapt
      split at h
      · simp at h
      · rename_i hmgr
        push_neg at hmgr
        injection h with h1
        exact ⟨tu, apt, htu, hapt, hmgr, h1.symm⟩

theorem deleteApartment_ok {db : DB} {aptId : Nat} {db' : DB}
    (h : deleteApartment db aptId = .ok db') :
    ∃ apt, findById db.apartments aptId = some apt ∧
      db' = { db with
        users := updateByIds
          (match apt.manager with
           | none => db.users
           | some m => updateById db.users m (fun u =>
               { u with managedApartments := pull u.managedApartments aptId }))
          apt.tenants (fun u => { u with assignedApartment := none }),
        apartments := removeById db.apartments aptId } := by
  simp only [deleteApartment] at h
  split at h
  · simp at h
  · rename_i apt hapt
    injection h with h1
    exact ⟨apt, hapt, h1.symm⟩

theorem markPaymentAsPaid_eq {db : DB} {caller pid now : Nat}
    {payment : Payment} {apt : Apartment}
    (hp : findById db.payments pid = some payment)
    (ha : findById db.apartments payment.apartment = some apt)
    (hm : apt.manager = some caller) :
    markPaymentAsPaid db caller pid now =
      .ok { db with payments := updateById db.payments pid (fun _ =>
        preSaveDerive now
          { payment with status := PaymentStatus.paid,
                         paymentDate := some now,
                         updatedBy := some caller }) } := by
  simp only [markPaymentAsPaid, hp, ha]
  rw [if_neg (by simp [hm])]

theorem markPaymentAsPaid_ok {db : DB} {caller pid now : Nat} {db' : DB}
    (h : markPaymentAsPaid db caller pid now = .ok db') :
    ∃ payment apt, findById db.payments pid = some payment ∧
      findById db.apartments payment.apartment = some apt ∧
      apt.manager = some caller ∧
      db' = { db with payments := updateById db.payments pid (fun _ =>
        preSaveDerive now
          { payment with status := PaymentStatus.paid,
                         paymentDate := some now,
                         updatedBy := some caller }) } := by
  simp only [markPaymentAsPaid] at h
  split at h
  · simp at h
  · rename_i payment hp
    split at h
    · simp at h
    · rename_i apt ha
      split at h
      · simp at h
      · rename_i hm
        push_neg at hm
        injection h with h1
        exact ⟨payment, apt, hp, ha, hm, h1.symm⟩

theorem createPayment_ok {db : DB} {caller : Nat} {attrs : PaymentAttrs}
    {newId now : Nat} {db' : DB}
    (h : createPayment db caller attrs newId now = .ok db') :
    ∃ tu apt, findById db.users attrs.tenantId = some tu ∧
      tu.role = UserRole.tenant ∧
      findById db.apartments attrs.apartmentId = some apt ∧
      apt.manager = some caller ∧
      db' = { db with payments := db.payments ++
        [(newId, preSaveDerive now (newPaymentDoc caller attrs))] } := by
  simp only [createPayment] at h
  split at h
  · simp at h
  · rename_i tu htu
    split at h
    · simp at h
    · rename_i hrole
      push_neg at hrole
      split at h
      · simp at h
      · rename_i apt hapt
        split at h
        · simp at h
        · rename_i hmgr
          push_neg at hmgr
          injection h with h1
          exact ⟨tu, apt, htu, hrole, hapt, hmgr, h1.symm⟩

theorem preSaveDerive_of_ne_pending {now : Nat} {p : Payment}
    (h : p.status ≠ PaymentStatus.pending) : preSaveDerive now p = p := by
  unfold preSaveDerive
  rw [if_neg]
  rintro ⟨-, hs⟩
  exact h hs

theorem preSaveDerive_status_of_pending {now : Nat} {p : Payment}
    (h : p.status = PaymentStatus.pending) :
    (preSaveDerive now p).status =
      if p.dueDate < now then PaymentStatus.overdue
      else PaymentStatus.pending := by
  unfold preSaveDerive
  by_cases hd : p.dueDate < now
  · rw [if_pos ⟨hd, h⟩, if_pos hd]
  · rw [if_neg (by rintro ⟨hlt, -⟩; exact hd hlt), if_neg hd, h]

/-! ## Invariant preservation for add/remove tenant -/

theorem addTenant_preserves_bidirInv {db : DB} {caller aptId tid : Nat}
    {db' : DB} (hinv : bidirInv db = true)
    (hok : addTenant db caller aptId (some tid) = Res.ok db')
    (hprior : ∀ u, findById db.users tid = some u →
       u.assignedApartment = none ∨ u.assignedApartment = some aptId) :
    bidirInv db' = true := by
  obtain ⟨tu, apt, htu, hrole, hapt, hmgr, rfl⟩ := addTenant_ok hok
  obtain ⟨hfwd, hconv⟩ := bidirInv_iff.mp hinv
  rw [bidirInv_iff]
  refine ⟨?_, ?_⟩
  · intro p hp
    rw [userPtrOk_iff]
    intro aid haid
    simp only at hp haid ⊢
    obtain ⟨q, hq, rfl⟩ := mem_updateById.mp hp
    by_cases hq1 : q.1 = tid
    · rw [if_pos hq1] at haid
      simp only at haid
      obtain rfl : aptId = aid := by injection haid
      refine ⟨{ apt with tenants := addToSet apt.tenants tid }, ?_, ?_⟩
      · rw [findById_updateById_self, hapt]
        rfl
      · exact mem_addToSet.mpr (Or.inr hq1)
    · rw [if_neg hq1] at haid
      obtain ⟨a, hfa, hmem⟩ := (userPtrOk_iff.mp (hfwd q hq)) aid haid
      by_cases haid2 : aid = aptId
      · subst haid2
        obtain rfl : apt = a := by
          rw [hapt] at hfa
          injection hfa
        refine ⟨{ apt with tenants := addToSet apt.tenants tid }, ?_, ?_⟩
        · rw [findById_updateById_self, hapt]
          rfl
        · exact mem_addToSet.mpr (Or.inl hmem)
      · exact ⟨a, by rw [findById_updateById_ne _ _ haid2]; exact hfa, hmem⟩
  · intro q' hq' uid huid
    rw [tenantPtrOk_iff]
    simp only at hq' huid ⊢
    obtain ⟨q, hq, rfl⟩ := mem_updateById.mp hq'
    by_cases hq1 : q.1 = aptId
    · rw [if_pos hq1] at huid
      simp only at huid ⊢
      by_cases huid_t : uid = tid
      · subst huid_t
        refine ⟨{ tu with assignedApartment := some aptId,
                          assignedManager := some caller }, ?_, ?_⟩
        · rw [findById_updateById_self, htu]
          rfl
        · rw [hq1]
      · have hmem : uid ∈ q.2.tenants := by
          rcases mem_addToSet.mp huid with hmem | heq
          · exact hmem
          · exact absurd heq huid_t
        obtain ⟨u, hu, hass⟩ := tenantPtrOk_iff.mp (hconv q hq uid hmem)
        refine ⟨u, ?_, ?_⟩
        · rw [findById_updateById_ne _ _ huid_t]
          exact hu
        · exact hass
    · rw [if_neg hq1] at huid
      obtain ⟨u, hu, hass⟩ := tenantPtrOk_iff.mp (hconv q hq uid huid)
      by_cases huid_t : uid = tid
      · subst huid_t
        obtain rfl : tu = u := by
          rw [htu] at hu
          injection hu
        rcases hprior tu htu with hnone | hsome
        · rw [hass] at hnone
          exact absurd hnone (by simp)
        · rw [hass] at hsome
          obtain rfl : q.1 = aptId := by injection hsome
          exact absurd rfl hq1
      · refine ⟨u, ?_, hass⟩
        rw [findById_updateById_ne _ _ huid_t]
        exact hu

theorem removeTenant_preserves_bidirInv {db : DB} {caller aptId tid : Nat}
    {db' : DB} (hinv : bidirInv db = true)
    (hok : removeTenant db caller aptId (some tid) = Res.ok db')
    (hprior : ∀ u, findById db.users tid = some u →
       u.assignedApartment = none ∨ u.assignedApartment = some aptId) :
    bidirInv db' = true := by
  obtain ⟨tu, apt, htu, hapt, hmgr, rfl⟩ := removeTenant_ok hok
  obtain ⟨hfwd, hconv⟩ := bidirInv_iff.mp hinv
  rw [bidirInv_iff]
  refine ⟨?_, ?_⟩
  · intro p hp
    rw [userPtrOk_iff]
    intro aid haid
    simp only at hp haid ⊢
    obtain ⟨q, hq, rfl⟩ := mem_updateById.mp hp
    by_cases hq1 : q.1 = tid
    · rw [if_pos hq1] at haid
      simp only at haid
      exact absurd haid (by simp)
    · rw [if_neg hq1] at haid
      obtain ⟨a, hfa, hmem⟩ := (userPtrOk_iff.mp (hfwd q hq)) aid haid
      by_cases haid2 : aid = aptId
      · subst haid2
        obtain rfl : apt = a := by
          rw [hapt] at hfa
          injection hfa
        refine ⟨{ apt with tenants := pull apt.tenants tid }, ?_, ?_⟩
        · rw [findById_updateById_self, hapt]
          rfl
        · exact mem_pull.mpr ⟨hmem, hq1⟩
      · exact ⟨a, by rw [findById_updateById_ne _ _ haid2]; exact hfa, hmem⟩
  · intro q' hq' uid huid
    rw [tenantPtrOk_iff]
    simp only at hq' huid ⊢
    obtain ⟨q, hq, rfl⟩ := mem_updateById.mp hq'
    by_cases hq1 : q.1 = aptId
    · rw [if_pos hq1] at huid
      simp only at huid ⊢
      obtain ⟨hmem, hne⟩ := mem_pull.mp huid
      obtain ⟨u, hu, hass⟩ := tenantPtrOk_iff.mp (hconv q hq uid hmem)
      refine ⟨u, ?_, hass⟩
      rw [findById_updateById_ne _ _ hne]
      exact hu
    · rw [if_neg hq1] at huid
      obtain ⟨u, hu, hass⟩ := tenantPtrOk_iff.mp (hconv q hq uid huid)
      by_cases huid_t : uid = tid
      · subst huid_t
        obtain rfl : tu = u := by
          rw [htu] at hu
          injection hu
        rcases hprior tu htu with hnone | hsome
        · rw [hass] at hnone
          exact absurd hnone (by simp)
        · rw [hass] at hsome
          obtain rfl : q.1 = aptId := by injection hsome
          exact absurd rfl hq1
      · refine ⟨u, ?_, hass⟩
        rw [findById_updateById_ne _ _ huid_t]
        exact hu

/-! ## The claims -/

/-- C1 fails on the code: starting from a store satisfying the
bidirectional invariant, a successful `addTenant` that moves tenant 1
from apartment 20 to apartment 10 leaves tenant 1 in apartment 20's
`tenants` array while `assignedApartment` points at apartment 10, so the
invariant is false afterwards. -/
theorem claim_C1_counterexample :
    bidirInv c1Db = true ∧
    addTenant c1Db 2 10 (some 1) = Res.ok c1DbAfter ∧
    bidirInv c1DbAfter = false := by
  refine ⟨by decide, by decide, by decide⟩

/-- C1 (amended): after a successful add-tenant or remove-tenant call the
bidirectional assignment invariant is preserved provided the affected
tenant's prior `assignedApartment` was empty or already the target
apartment; a tenant previously assigned to a different apartment stays in
the old apartment's `tenants` array, breaking the converse direction. -/
theorem claim_C1_amended :
    (∀ db caller aptId tid db', bidirInv db = true →
        addTenant db caller aptId (some tid) = Res.ok db' →
        (∀ u, findById db.users tid = some u →
           u.assignedApartment = none ∨ u.assignedApartment = some aptId) →
        bidirInv db' = true) ∧
    (∀ db caller aptId tid db', bidirInv db = true →
        removeTenant db caller aptId (some tid) = Res.ok db' →
        (∀ u, findById db.users tid = some u →
           u.assignedApartment = none ∨ u.assignedApartment = some aptId) →
        bidirInv db' = true) :=
  ⟨fun _ _ _ _ _ hinv hok hprior =>
      addTenant_preserves_bidirInv hinv hok hprior,
   fun _ _ _ _ _ hinv hok hprior =>
      removeTenant_preserves_bidirInv hinv hok hprior⟩

/-- C1 witness: the amended preservation applied to concrete stores, for
both the add and the remove operation. -/
theorem claim_C1_witness :
    bidirInv c1wAddAfter = true ∧ bidirInv c1wRemAfter = true := by
  constructor
  · refine claim_C1_amended.1 c1wAddDb 2 10 1 c1wAddAfter (by decide)
      (by decide) ?_
    intro u hu
    have h0 : findById c1wAddDb.users 1 = some (tenantDoc none none) := by
      decide
    rw [h0] at hu
    obtain rfl : tenantDoc none none = u := by injection hu
    left
    rfl
  · refine claim_C1_amended.2 c1wRemDb 2 10 1 c1wRemAfter (by decide)
      (by decide) ?_
    intro u hu
    have h0 : findById c1wRemDb.users 1 =
        some (tenantDoc (some 2) (some 10)) := by decide
    rw [h0] at hu
    obtain rfl : tenantDoc (some 2) (some 10) = u := by injection hu
    right
    rfl

/-- C2 fails on the code: `markPaymentAsPaid` stamps `paymentDate = now`
unconditionally, so a second authorized call at time 9 overwrites the
paymentDate (some 5) left by the first call at time 5. -/
theorem claim_C2_counterexample :
    markPaymentAsPaid c2Db 2 7 5 = Res.ok c2Db1 ∧
    (findById c2Db1.payments 7).map Payment.paymentDate = some (some 5) ∧
    markPaymentAsPaid c2Db1 2 7 9 = Res.ok c2Db2 ∧
    (findById c2Db2.payments 7).map Payment.paymentDate = some (some 9) ∧
    (findById c2Db2.payments 7).map Payment.paymentDate ≠ some (some 5) := by
  decide

/-- C2 (amended): every successful `markPaymentAsPaid` call ends with
status PAID (so repeated calls are idempotent on status), but the stored
`paymentDate` is always the time of the latest call — it is re-stamped
unconditionally, not only when unset (that conditional stamping exists
only in `updatePayment`). -/
theorem claim_C2_amended : ∀ db caller pid now db',
    markPaymentAsPaid db caller pid now = Res.ok db' →
    ∃ p, findById db'.payments pid = some p ∧
      p.status = PaymentStatus.paid ∧ p.paymentDate = some now := by
  intro db caller pid now db' h
  obtain ⟨payment, apt, hp, ha, hm, rfl⟩ := markPaymentAsPaid_ok h
  have hps : preSaveDerive now
      { payment with status := PaymentStatus.paid,
                     paymentDate := some now, updatedBy := some caller } =
      { payment with status := PaymentStatus.paid,
                     paymentDate := some now, updatedBy := some caller } :=
    preSaveDerive_of_ne_pending (by simp)
  refine ⟨({ payment with
      status := PaymentStatus.paid,
      paymentDate := some now,
      updatedBy := some caller } : Payment), ?_, rfl, rfl⟩
  simp only
  rw [findById_updateById_self, hp, Option.map_some']
  exact congrArg some hps

/-- C2 witness: the amended statement applied to a concrete overdue
payment marked paid at time 5. -/
theorem claim_C2_witness :
    ∃ p, findById c2wDb1.payments 7 = some p ∧
      p.status = PaymentStatus.paid ∧ p.paymentDate = some 5 := by
  exact claim_C2_amended c2wDb 2 7 5 c2wDb1 (by decide)

/-- C3 fails on the code: the Payment schema's save hook runs on the very
first save performed by `createPayment`, so a payment created at time 5
with due date 3 is stored with status OVERDUE, not PENDING. -/
theorem claim_C3_counterexample :
    createPayment c3Db 2 c3Attrs 100 5 = Res.ok c3DbAfter ∧
    (findById c3DbAfter.payments 100).map Payment.status =
      some PaymentStatus.overdue ∧
    (findById c3DbAfter.payments 100).map Payment.status ≠
      some PaymentStatus.pending := by
  decide

/-- C3 (amended): `createPayment` builds the document with status PENDING,
but the overdue derivation runs on the initial save as well: the stored
status is OVERDUE when the due date is already past at creation time and
PENDING otherwise. -/
theorem claim_C3_amended : ∀ db caller attrs newId now db',
    createPayment db caller attrs newId now = Res.ok db' →
    findById db.payments newId = none →
    ∃ p, findById db'.payments newId = some p ∧
      p.status = (if attrs.dueDate < now then PaymentStatus.overdue
                  else PaymentStatus.pending) := by
  intro db caller attrs newId now db' h hfresh
  obtain ⟨tu, apt, htu, hrole, hapt, hmgr, rfl⟩ := createPayment_ok h
  refine ⟨preSaveDerive now (newPaymentDoc caller attrs), ?_, ?_⟩
  · simp only
    rw [findById_append, hfresh]
    simp [findById]
  · exact preSaveDerive_status_of_pending rfl

/-- C3 witness: the amended statement applied to the concrete store, with
a past due date. -/
theorem claim_C3_witness :
    ∃ p, findById c3DbAfter.payments 100 = some p ∧
      p.status = (if c3Attrs.dueDate < 5 then PaymentStatus.overdue
                  else PaymentStatus.pending) := by
  exact claim_C3_amended c3Db 2 c3Attrs 100 5 c3DbAfter (by decide) (by decide)

/-- C4: the save-time overdue derivation flips a PENDING payment with a
past due date to OVERDUE, and leaves any payment with a non-PENDING
status (PAID, OVERDUE, CANCELLED) completely unchanged, whatever its due
date. -/
theorem claim_C4 :
    (∀ now p, p.status = PaymentStatus.pending → p.dueDate < now →
        (preSaveDerive now p).status = PaymentStatus.overdue) ∧
    (∀ now p, p.status ≠ PaymentStatus.pending → preSaveDerive now p = p) := by
  constructor
  · intro now p hs hd
    unfold preSaveDerive
    rw [if_pos ⟨hd, hs⟩]
  · intro now p hs
    exact preSaveDerive_of_ne_pending hs

/-- C4 witness: the derivation evaluated on one pending and one paid
concrete payment with past due dates. -/
theorem claim_C4_witness :
    (preSaveDerive 5 (paymentDoc PaymentStatus.pending 3 none none)).status =
      PaymentStatus.overdue ∧
    preSaveDerive 5 (paymentDoc PaymentStatus.paid 3 (some 1) none) =
      paymentDoc PaymentStatus.paid 3 (some 1) none := by
  exact ⟨claim_C4.1 5 _ rfl (by decide), claim_C4.2 5 _ (by decide)⟩

/-- C5: for a caller and an existing role-valid tenant id, calling
`addTenant` on an apartment id that does not exist and on an existing
apartment the caller does not manage produce literally the same error
response: status 404 with the same body. -/
theorem claim_C5 : ∀ db caller tid tu aid1 aid2 apt,
    findById db.users tid = some tu → tu.role = UserRole.tenant →
    findById db.apartments aid1 = none →
    findById db.apartments aid2 = some apt → apt.manager ≠ some caller →
    addTenant db caller aid1 (some tid) = Res.err 404 aptNotManagedMsg ∧
    addTenant db caller aid2 (some tid) = Res.err 404 aptNotManagedMsg := by
  intro db caller tid tu aid1 aid2 apt htu hrole h1 h2 hm
  constructor
  · simp only [addTenant, htu, h1]
    rw [if_neg (by simp [hrole])]
  · simp only [addTenant, htu, h2]
    rw [if_neg (by simp [hrole]), if_pos hm]

/-- C5 witness: both calls evaluated on a concrete store. -/
theorem claim_C5_witness :
    addTenant c5Db 2 10 (some 1) = Res.err 404 aptNotManagedMsg ∧
    addTenant c5Db 2 20 (some 1) = Res.err 404 aptNotManagedMsg := by
  exact claim_C5 c5Db 2 1 (tenantDoc none none) 10 20 (aptDoc (some 3) [])
    (by decide) rfl (by decide) (by decide) (by decide)

/-- C6: a successful `deleteApartment` on an apartment with manager M and
tenants T1, T2 removes the apartment from M's `managedApartments`, clears
`assignedApartment` on T1 and T2, and removes the apartment record. -/
theorem claim_C6 : ∀ db aid apt m t1 t2 db' mu u1 u2,
    findById db.apartments aid = some apt →
    apt.manager = some m → apt.tenants = [t1, t2] →
    findById db.users m = some mu →
    findById db.users t1 = some u1 →
    findById db.users t2 = some u2 →
    deleteApartment db aid = Res.ok db' →
    (∃ mu', findById db'.users m = some mu' ∧ aid ∉ mu'.managedApartments) ∧
    (∃ u1', findById db'.users t1 = some u1' ∧
      u1'.assignedApartment = none) ∧
    (∃ u2', findById db'.users t2 = some u2' ∧
      u2'.assignedApartment = none) ∧
    findById db'.apartments aid = none := by
  intro db aid apt m t1 t2 db' mu u1 u2 hapt hm ht hmu hu1 hu2 hok
  obtain ⟨apt0, hapt0, rfl⟩ := deleteApartment_ok hok
  rw [hapt] at hapt0
  obtain rfl : apt = apt0 := by injection hapt0
  refine ⟨?_, ?_, ?_, findById_removeById_self _ _⟩
  · simp only [hm, ht]
    by_cases hmem : m ∈ ([t1, t2] : List Nat)
    · refine ⟨{ mu with
          managedApartments := pull mu.managedApartments aid,
          assignedApartment := none }, ?_, not_mem_pull_self⟩
      rw [findById_updateByIds_mem _ _ hmem, findById_updateById_self, hmu,
        Option.map_some', Option.map_some']
    · refine ⟨{ mu with
          managedApartments := pull mu.managedApartments aid },
          ?_, not_mem_pull_self⟩
      rw [findById_updateByIds_not_mem _ _ hmem, findById_updateById_self,
        hmu, Option.map_some']
  · simp only [hm, ht]
    obtain ⟨w, hw, -⟩ := findById_updateById_isSome db.users m t1
      (fun u => { u with
        managedApartments := pull u.managedApartments aid }) hu1
    refine ⟨{ w with assignedApartment := none }, ?_, rfl⟩
    rw [findById_updateByIds_mem _ _
      (by simp : t1 ∈ ([t1, t2] : List Nat)), hw, Option.map_some']
  · simp only [hm, ht]
    obtain ⟨w, hw, -⟩ := findById_updateById_isSome db.users m t2
      (fun u => { u with
        managedApartments := pull u.managedApartments aid }) hu2
    refine ⟨{ w with assignedApartment := none }, ?_, rfl⟩
    rw [findById_updateByIds_mem _ _
      (by simp : t2 ∈ ([t1, t2] : List Nat)), hw, Option.map_some']

/-- C6 witness: the cascade evaluated on a concrete store with manager 2
and tenants 1 and 3. -/
theorem claim_C6_witness :
    (∃ mu', findById c6DbAfter.users 2 = some mu' ∧
      10 ∉ mu'.managedApartments) ∧
    (∃ u1', findById c6DbAfter.users 1 = some u1' ∧
      u1'.assignedApartment = none) ∧
    (∃ u2', findById c6DbAfter.users 3 = some u2' ∧
      u2'.assignedApartment = none) ∧
    findById c6DbAfter.apartments 10 = none := by
  exact claim_C6 c6Db 10 (aptDoc (some 2) [1, 3]) 2 1 3 c6DbAfter
    (managerDoc [10]) (tenantDoc (some 2) (some 10))
    (tenantDoc (some 2) (some 10)) (by decide) rfl rfl (by decide)
    (by decide) (by decide) (by decide)

/-- C7: the auth middleware returns the same Unauthenticated kind
(status 401) for a missing token, a malformed token, an expired token and
a decoded subject id that resolves to no user; and it succeeds exactly
when the token decodes to a subject id that resolves to an existing user,
attaching that user's role. -/
theorem claim_C7 :
    (∀ db, auth db none =
      AuthResult.failure 401 "No token, authorization denied") ∧
    (∀ db, auth db (some Token.malformed) =
      AuthResult.failure 401 "Token is not valid") ∧
    (∀ db sid, auth db (some (Token.expired sid)) =
      AuthResult.failure 401 "Token is not valid") ∧
    (∀ db sid, findById db.users sid = none →
      auth db (some (Token.valid sid)) =
        AuthResult.failure 401 "User not found") ∧
    (∀ db tok uid role, auth db tok = AuthResult.success uid role ↔
      ∃ t u, tok = some t ∧ verifyJwt t = some uid ∧
        findById db.users uid = some u ∧ u.role = role) := by
  refine ⟨fun db => rfl, fun db => rfl, fun db sid => rfl, ?_, ?_⟩
  · intro db sid h
    simp only [auth, verifyJwt, h]
  · intro db tok uid role
    constructor
    · intro h
      match tok with
      | none => simp [auth] at h
      | some t =>
        simp only [auth] at h
        split at h
        · simp at h
        · rename_i sid hv
          split at h
          · simp at h
          · rename_i u hf
            injection h with h1 h2
            subst h1
            subst h2
            exact ⟨t, u, rfl, hv, hf, rfl⟩
    · rintro ⟨t, u, rfl, hv, hf, rfl⟩
      simp only [auth, hv, hf]

/-- C7 witness: the middleware evaluated on a concrete store, for an
unresolvable subject id and for a resolvable one. -/
theorem claim_C7_witness :
    auth c7Db (some (Token.valid 5)) =
      AuthResult.failure 401 "User not found" ∧
    auth c7Db (some (Token.valid 1)) =
      AuthResult.success 1 UserRole.tenant := by
  constructor
  · exact claim_C7.2.2.2.1 c7Db 5 (by decide)
  · exact (claim_C7.2.2.2.2 c7Db (some (Token.valid 1)) 1
      UserRole.tenant).mpr
      ⟨Token.valid 1, tenantDoc none none, rfl, rfl, by decide, rfl⟩

/-- C8: a successful `createTenant` leaves the apartments collection (and
every apartment's tenants set) untouched and never consults it — success
depends only on email freshness — while the new tenant document carries
`assignedManager = caller` and `assignedApartment` copied verbatim from
the request. -/
theorem claim_C8 :
    (∀ db caller attrs newId, findOneByEmail db.users attrs.email = none →
        createTenant db caller attrs newId =
          Res.ok { db with
            users := db.users ++ [(newId, newTenantUser caller attrs)] }) ∧
    (∀ db caller attrs newId db',
        createTenant db caller attrs newId = Res.ok db' →
        db'.apartments = db.apartments ∧
        (findById db.users newId = none →
          ∃ u, findById db'.users newId = some u ∧
            u.assignedApartment = attrs.apartmentId ∧
            u.assignedManager = some caller ∧ u.role = UserRole.tenant) ∧
        ((∀ q ∈ db.apartments, newId ∉ q.2.tenants) →
          ∀ q ∈ db'.apartments, newId ∉ q.2.tenants)) := by
  constructor
  · intro db caller attrs newId h
    simp only [createTenant, h]
  · intro db caller attrs newId db' h
    simp only [createTenant] at h
    split at h
    · simp at h
    · injection h with h1
      subst h1
      refine ⟨rfl, ?_, ?_⟩
      · intro hfresh
        refine ⟨newTenantUser caller attrs, ?_, rfl, rfl, rfl⟩
        simp only
        rw [findById_append, hfresh]
        simp [findById]
      · intro hno q hq
        exact hno q hq

/-- C8 witness: creating a tenant naming a nonexistent apartment id (99)
succeeds and leaves the store's apartments untouched. -/
theorem claim_C8_witness :
    createTenant c8Db 2 c8Attrs 5 = Res.ok c8After ∧
    c8After.apartments = c8Db.apartments := by
  constructor
  · exact claim_C8.1 c8Db 2 c8Attrs 5 (by decide)
  · exact (claim_C8.2 c8Db 2 c8Attrs 5 c8After
      (claim_C8.1 c8Db 2 c8Attrs 5 (by decide))).1

/-- C9: for every tenant listed on a deleted apartment, `deleteApartment`
clears only `assignedApartment`; the tenant's `assignedManager` keeps its
prior value (still naming the apartment's former manager). -/
theorem claim_C9 : ∀ db aid apt t u db',
    findById db.apartments aid = some apt →
    deleteApartment db aid = Res.ok db' →
    t ∈ apt.tenants →
    findById db.users t = some u →
    ∃ u', findById db'.users t = some u' ∧
      u'.assignedApartment = none ∧
      u'.assignedManager = u.assignedManager := by
  intro db aid apt t u db' hapt hok hmem hu
  obtain ⟨apt0, hapt0, rfl⟩ := deleteApartment_ok hok
  rw [hapt] at hapt0
  obtain rfl : apt = apt0 := by injection hapt0
  cases hm : apt.manager with
  | none =>
    simp only [hm]
    refine ⟨{ u with assignedApartment := none }, ?_, rfl, rfl⟩
    rw [findById_updateByIds_mem _ _ hmem, hu, Option.map_some']
  | some m =>
    simp only [hm]
    obtain ⟨w, hw, hcase⟩ := findById_updateById_isSome db.users m t
      (fun v => { v with
        managedApartments := pull v.managedApartments aid }) hu
    refine ⟨{ w with assignedApartment := none }, ?_, rfl, ?_⟩
    · rw [findById_updateByIds_mem _ _ hmem, hw, Option.map_some']
    · rcases hcase with rfl | rfl
      · rfl
      · rfl

/-- C9 witness: tenant 1 of the deleted apartment 10 keeps its
`assignedManager` (user 2). -/
theorem claim_C9_witness :
    ∃ u', findById c6DbAfter.users 1 = some u' ∧
      u'.assignedApartment = none ∧
      u'.assignedManager = (tenantDoc (some 2) (some 10)).assignedManager := by
  exact claim_C9 c6Db 10 (aptDoc (some 2) [1, 3]) 1
    (tenantDoc (some 2) (some 10)) c6DbAfter (by decide) (by decide)
    (by decide) (by decide)

/-- C10: `markPaymentAsPaid` imposes no precondition on the payment's
current status: whenever the payment exists and its apartment is managed
by the caller, the call succeeds and the stored status afterwards is
PAID, whatever the status was before (CANCELLED, OVERDUE, ...). -/
theorem claim_C10 : ∀ db caller pid now payment apt,
    findById db.payments pid = some payment →
    findById db.apartments payment.apartment = some apt →
    apt.manager = some caller →
    ∃ db' p', markPaymentAsPaid db caller pid now = Res.ok db' ∧
      findById db'.payments pid = some p' ∧
      p'.status = PaymentStatus.paid := by
  intro db caller pid now payment apt hp ha hm
  have hps : preSaveDerive now
      { payment with
        status := PaymentStatus.paid,
        paymentDate := some now,
        updatedBy := some caller } =
      { payment with
        status := PaymentStatus.paid,
        paymentDate := some now,
        updatedBy := some caller } :=
    preSaveDerive_of_ne_pending (by simp)
  refine ⟨_, ({ payment with
      status := PaymentStatus.paid,
      paymentDate := some now,
      updatedBy := some caller } : Payment),
    markPaymentAsPaid_eq hp ha hm, ?_, rfl⟩
  simp only
  rw [findById_updateById_self, hp, Option.map_some']
  exact congrArg some hps

/-- C10 witness: a CANCELLED payment marked paid on a concrete store. -/
theorem claim_C10_witness :
    ∃ db' p', markPaymentAsPaid c10Db 2 7 9 = Res.ok db' ∧
      findById db'.payments 7 = some p' ∧
      p'.status = PaymentStatus.paid := by
  exact claim_C10 c10Db 2 7 9 (paymentDoc PaymentStatus.cancelled 3 none none)
    (aptDoc (some 2) [1]) (by decide) (by decide) (by decide)

end PropertyMgmt
